import Mathlib

/-!
Shallow embedding of the `leptos-ws-echo` WebSocket wrapper
(`src/ws.rs` and `src/main.rs`).

The wrapper is browser-event glue: it opens a `web_sys::WebSocket`,
attaches four `gloo` event listeners (message, open, close, error),
forwards socket events to two callback slots (one for messages, one for
status updates), and exposes `send` / `send_binary`.

Modelling conventions:
* `JsValue` strings (error details) are modelled as `String`;
  byte buffers (`Vec<u8>` / `Uint8Array` contents) as `List Nat`
  with each element standing for one `u8` (values below 256).
* Callback invocations are the observable effect of the code, so
  functions that invoke callbacks return the list of values the
  callbacks were invoked with, in invocation order.
* `connect` is straight-line code with one fallible step
  (`WebSocket::new`); it is embedded as a function emitting a trace of
  `ConnectStep` actions, parameterised by the platform outcome of
  socket construction (`ctor : String → Except String Unit`, the error
  case carrying the construction error text that the Rust code
  extracts via `js_sys::Error::to_string`).
-/

/-- `ws.rs` `WebSocketStatus`: the status of a WebSocket connection.
The `Error` payload (a `JsValue` produced from a string) is modelled
as the string itself. -/
inductive WebSocketStatus where
  | Opened : WebSocketStatus
  | Closed : WebSocketStatus
  | Error : String → WebSocketStatus
  | Connecting : WebSocketStatus
deriving DecidableEq, Repr

/-- `ws.rs` `WebSocketMessage`: a decoded incoming message. -/
inductive WebSocketMessage where
  | Text : String → WebSocketMessage
  | Binary : List Nat → WebSocketMessage
deriving DecidableEq, Repr

/-- `ws.rs` `WebSocketError`: the only variant is `CreationError(String)`. -/
inductive WebSocketError where
  | CreationError : String → WebSocketError
deriving DecidableEq, Repr

/-- `format!("\x7b:02x\x7d", byte)` for a `u8`: the two-digit lowercase
hexadecimal rendering (values of `u8` are below 256, so two hex digits
always suffice; `Nat.digitChar` yields lowercase `a`-`f`). -/
def hexByte (b : Nat) : String :=
  String.mk [Nat.digitChar (b / 16), Nat.digitChar (b % 16)]

/-- `ws.rs` `WebSocketMessage::is_empty`. -/
def WebSocketMessage.is_empty : WebSocketMessage → Bool
  | .Text text => text.isEmpty
  | .Binary data => data.isEmpty

/-- `ws.rs` `WebSocketMessage::to_string`: text verbatim; binary as the
fold that starts from the empty string and pushes `format!("\x7b:02x\x7d", byte)`
for each byte in order. -/
def WebSocketMessage.to_string : WebSocketMessage → String
  | .Text text => text
  | .Binary data => data.foldl (fun out byte => out ++ hexByte byte) ""

/-- Spec-side formulation of the binary rendering: the concatenation of
the two-digit lowercase hex rendering of each byte, in order. -/
def hexConcat : List Nat → String
  | [] => ""
  | b :: rest => hexByte b ++ hexConcat rest

/-- The JavaScript value returned by `MessageEvent::data()`: either a
string or a non-string payload carrying bytes (the socket is in
`BinaryType::Arraybuffer` mode, so non-string payloads are array
buffers). -/
inductive JsData where
  | str : String → JsData
  | buf : List Nat → JsData
deriving DecidableEq, Repr

/-- `JsValue::is_string` on the message data. -/
def JsData.is_string : JsData → Bool
  | .str _ => true
  | .buf _ => false

/-- `JsValue::as_string` on the message data: `Some` exactly on strings. -/
def JsData.as_string : JsData → Option String
  | .str s => some s
  | .buf _ => none

/-- `Uint8Array::new(&data).to_vec()`: on a buffer payload this copies
the bytes in order. (On a string payload, never reached from
`process_binary`, a `Uint8Array` built from a non-buffer `JsValue`
carries no meaningful bytes; modelled as `[]`.) -/
def uint8ArrayToVec : JsData → List Nat
  | .str _ => []
  | .buf b => b

/-- `ws.rs` `process_binary`: returns `some m` when the message
callback is invoked with `m`, and `none` on the log-and-drop branch
(`error!("Received binary data, ...")`). -/
def process_binary (data : JsData) : Option WebSocketMessage :=
  let bytes := if !data.is_string then some data else none
  let converted :=
    match bytes with
    | some bs => some (uint8ArrayToVec bs)
    | none => none
  match converted with
  | some d => some (WebSocketMessage.Binary d)
  | none => none

/-- `ws.rs` `process_text`: returns `some m` when the message callback
is invoked with `m`, and `none` on the log-and-drop branch
(`error!("Received text data, ...")`). -/
def process_text (data : JsData) : Option WebSocketMessage :=
  match data.as_string with
  | some text => some (WebSocketMessage.Text text)
  | none => none

/-- `ws.rs` `process_both`: dispatches on `event.data().is_string()`. -/
def process_both (data : JsData) : Option WebSocketMessage :=
  if data.is_string then process_text data else process_binary data

/-! ### Connection, listeners and the connect trace -/

/-- The four listener kinds attached by `connect` / `connect_common`. -/
inductive ListenerKind where
  | onMessage : ListenerKind
  | onOpen : ListenerKind
  | onClose : ListenerKind
  | onError : ListenerKind
deriving DecidableEq, Repr

/-- `ws.rs` `WebSocketTask`: the handle returned by `connect`. The
`ws : WebSocket` and `notification : WsAction<WebSocketStatus>` fields
are foreign handles; what the embedding tracks is the attached listener
set (the Rust field `listeners: [Rc<EventListener>; 4]`, stored as
`[message, open, close, error]` by `WebSocketTask::new`). -/
structure WebSocketTask where
  listeners : List ListenerKind
deriving DecidableEq, Repr

/-- One observable action performed during `connect`: a status-callback
invocation (`update_ws_action(&notification, ...)`), the attempt to
construct the socket (`WebSocket::new(url)`), or the attachment of one
event listener (`EventListener::new(&ws, ...)`). -/
inductive ConnectStep where
  | notify : WebSocketStatus → ConnectStep
  | construct : String → ConnectStep
  | attach : ListenerKind → ConnectStep
deriving DecidableEq, Repr

/-- `ws.rs` `WebSocketService::connect_common`, with the platform
outcome of `WebSocket::new(url)` supplied as `ctor`. On construction
failure the error is wrapped as `CreationError` of the error text; on
success the binary type is set and the open/close/error listeners are
attached, in that order. Returns the action trace together with the
result. -/
def connect_common (url : String) (ctor : String → Except String Unit) :
    List ConnectStep × Except WebSocketError (List ListenerKind) :=
  match ctor url with
  | .error e => ([ConnectStep.construct url], .error (WebSocketError.CreationError e))
  | .ok _ =>
      ([ConnectStep.construct url, ConnectStep.attach .onOpen,
        ConnectStep.attach .onClose, ConnectStep.attach .onError],
       .ok [ListenerKind.onOpen, ListenerKind.onClose, ListenerKind.onError])

/-- `ws.rs` `WebSocketService::connect`: first invokes the status
callback with `Connecting`, then runs `connect_common` (propagating its
error with `?`), then attaches the message listener and builds the
task whose listener array is `[message, open, close, error]`. -/
def connect (url : String) (ctor : String → Except String Unit) :
    List ConnectStep × Except WebSocketError WebSocketTask :=
  let first := [ConnectStep.notify WebSocketStatus.Connecting]
  let common := connect_common url ctor
  match common.2 with
  | .error e => (first ++ common.1, .error e)
  | .ok ls =>
      (first ++ common.1 ++ [ConnectStep.attach .onMessage],
       .ok { listeners := ListenerKind.onMessage :: ls })

/-- The status-callback invocations contained in a connect trace. -/
def notifiesOf (steps : List ConnectStep) : List WebSocketStatus :=
  steps.filterMap (fun s =>
    match s with
    | .notify st => some st
    | _ => none)

/-! ### Send -/

/-- `ws.rs` `WebSocketTask::send`: calls `self.ws.send_with_str(&data)`
(platform outcome supplied as `res`, the error carrying the failure's
`JsValue` modelled as a string) and returns `()` to the caller; the
returned list is the sequence of status-callback invocations it
performs: `[Error e]` when transmission fails, `[]` when it succeeds. -/
def WebSocketTask.send (_t : WebSocketTask) (_data : String)
    (res : Except String Unit) : List WebSocketStatus :=
  match res with
  | .error e => [WebSocketStatus.Error e]
  | .ok _ => []

/-- `ws.rs` `WebSocketTask::send_binary`: same shape over
`self.ws.send_with_u8_array(&data)` (plus a log line on failure). -/
def WebSocketTask.send_binary (_t : WebSocketTask) (_data : List Nat)
    (res : Except String Unit) : List WebSocketStatus :=
  match res with
  | .error e => [WebSocketStatus.Error e]
  | .ok _ => []

/-! ### Socket events and the reported status trace -/

/-- A socket event delivered to the handle's listeners. An error
event carries the event's debug rendering (the Rust listener builds
the status detail as `format!("\x7b:?\x7d", e)` turned into a `JsValue`). -/
inductive SocketEvent where
  | openEvt : SocketEvent
  | closeEvt : SocketEvent
  | errorEvt : String → SocketEvent
  | messageEvt : JsData → SocketEvent
deriving DecidableEq, Repr

/-- The status reported by the listener handling one event
(`listener_open` / `listener_close` / `listener_error` in
`connect_common`); message events report no status. -/
def eventStatus : SocketEvent → Option WebSocketStatus
  | .openEvt => some WebSocketStatus.Opened
  | .closeEvt => some WebSocketStatus.Closed
  | .errorEvt e => some (WebSocketStatus.Error e)
  | .messageEvt _ => none

/-- The sequence of statuses the handle's status callback receives for
a sequence of delivered socket events: `Connecting` at `connect`, then
one status per open/close/error event, in delivery order. -/
def statusTrace (events : List SocketEvent) : List WebSocketStatus :=
  WebSocketStatus.Connecting :: events.filterMap eventStatus

/-- The edges of the spec's status state machine:
`Connecting → Opened or Error`, `Opened → Closed or Error`,
nothing out of `Closed` or `Error`. -/
def validEdge : WebSocketStatus → WebSocketStatus → Bool
  | .Connecting, .Opened => true
  | .Connecting, .Error _ => true
  | .Opened, .Closed => true
  | .Opened, .Error _ => true
  | _, _ => false

/-- Every consecutive pair in `s :: rest` is a `validEdge`. -/
def validChain : WebSocketStatus → List WebSocketStatus → Bool
  | _, [] => true
  | s, t :: rest => validEdge s t && validChain t rest

/-- A status trace follows the state machine. -/
def validTrace : List WebSocketStatus → Bool
  | [] => true
  | s :: rest => validChain s rest

/-! ### Spec-side apparatus for the status state machine

The listeners installed by `connect_common` are stateless: each maps
its event to a fixed status, with no tracking of the current status.
The reported trace therefore follows the spec's machine exactly when
the delivered event sequence itself does; `stepEvent` / `runEvents` /
`wfEvents` formalise that well-formedness condition on event
sequences. -/

/-- Abstract machine state over event sequences: still connecting,
opened, or finished (closed or errored). -/
inductive MachineState where
  | conn : MachineState
  | opened : MachineState
  | dead : MachineState
deriving DecidableEq, Repr

/-- One event of a well-formed delivery: message events are always
allowed and change nothing; `open` only while connecting; `close` only
while opened; `error` while connecting or opened; no open/close/error
event after a close or error event. -/
def stepEvent : MachineState → SocketEvent → Option MachineState
  | m, .messageEvt _ => some m
  | .conn, .openEvt => some MachineState.opened
  | .conn, .errorEvt _ => some MachineState.dead
  | .conn, .closeEvt => none
  | .opened, .closeEvt => some MachineState.dead
  | .opened, .errorEvt _ => some MachineState.dead
  | .opened, .openEvt => none
  | .dead, _ => none

/-- Run `stepEvent` over a whole event sequence. -/
def runEvents : MachineState → List SocketEvent → Option MachineState
  | m, [] => some m
  | m, e :: rest =>
    match stepEvent m e with
    | some m2 => runEvents m2 rest
    | none => none

/-- A well-formed delivered event sequence, starting while connecting. -/
def wfEvents (es : List SocketEvent) : Bool :=
  (runEvents MachineState.conn es).isSome

/-- The statuses compatible with an abstract machine state. -/
def compat : MachineState → WebSocketStatus → Prop
  | .conn, s => s = WebSocketStatus.Connecting
  | .opened, s => s = WebSocketStatus.Opened
  | .dead, s => s = WebSocketStatus.Closed ∨ ∃ e, s = WebSocketStatus.Error e

/-- The `WebSocketTask` returned by a successful `connect` has no
`Drop` implementation in `ws.rs`; dropping its last clone drops the
four `Rc<EventListener>` fields, whose own drop (gloo) removes each
listener from the socket. Nothing calls `WebSocket::close`:
`WebSocketTask::close` is `#[allow(dead_code)]` with no caller, despite
the `#[must_use]` note "the connection will be closed when the task is
dropped". -/
inductive DropAction where
  | detach : ListenerKind → DropAction
  | closeSocket : DropAction
deriving DecidableEq, Repr

/-- The actions performed when the last clone of a `WebSocketTask` is
dropped: the derived drop detaches each held listener, in field order,
and performs no socket close. -/
def dropTask (t : WebSocketTask) : List DropAction :=
  t.listeners.map DropAction.detach

/-! Theorems for the message-processing claims. -/

/-- Recogniser for the `Binary` variant. -/
def isBinaryMsg : WebSocketMessage → Bool
  | .Binary _ => true
  | .Text _ => false

/-- Recogniser for the `Text` variant. -/
def isTextMsg : WebSocketMessage → Bool
  | .Text _ => true
  | .Binary _ => false

/-- C5: a message event whose data is a string `T` invokes the message
callback with exactly `Text T`, never a `Binary` variant. -/
theorem process_both_text (s : String) :
    process_both (JsData.str s) = some (WebSocketMessage.Text s) ∧
    (process_both (JsData.str s)).any isBinaryMsg = false :=
  ⟨rfl, rfl⟩

/-- C6: a message event whose data is a non-string payload with bytes
`B` invokes the message callback with exactly `Binary B` — the same
bytes in the same order, hence the same length — and never a `Text`
variant. -/
theorem process_both_binary (b : List Nat) :
    process_both (JsData.buf b) = some (WebSocketMessage.Binary b) ∧
    (process_both (JsData.buf b)).any isTextMsg = false :=
  ⟨rfl, rfl⟩

/-- C9: dispatched through `process_both`, every message event invokes
the message callback exactly once: the log-and-drop branches of
`process_text` and `process_binary` are unreachable, so the result is
always `some` — one callback invocation, never a drop. -/
theorem process_both_total (d : JsData) :
    (process_both d).isSome = true ∧ (process_both d).isNone = false := by
  cases d <;> exact ⟨rfl, rfl⟩

/-! ### C1: the status state machine -/

/-- C1 counterexample: the handle's listeners enforce no state
machine. A single `close` event delivered while still connecting makes
the status callback report `Connecting` then `Closed`, and
`Connecting → Closed` is not an edge of the claimed machine. -/
theorem statusTrace_close_invalid :
    validTrace (statusTrace [SocketEvent.closeEvt]) = false := by
  decide

/-- Helper for C1: from a machine state compatible with the current
status, a well-formed remainder yields a valid status chain. -/
theorem validChain_of_run (es : List SocketEvent) :
    ∀ (m : MachineState) (s : WebSocketStatus), compat m s →
      (runEvents m es).isSome = true →
      validChain s (es.filterMap eventStatus) = true := by
  induction es with
  | nil => intro m s _ _; rfl
  | cons e rest ih =>
    intro m s hc hr
    cases e with
    | messageEvt d =>
      rw [runEvents] at hr
      simp only [stepEvent] at hr
      simpa [eventStatus] using ih m s hc hr
    | openEvt =>
      cases m with
      | conn =>
        rw [runEvents] at hr
        simp only [stepEvent] at hr
        have hs : s = WebSocketStatus.Connecting := hc
        subst hs
        simpa [eventStatus, validChain, validEdge] using
          ih MachineState.opened WebSocketStatus.Opened rfl hr
      | opened => rw [runEvents] at hr; simp [stepEvent] at hr
      | dead => rw [runEvents] at hr; simp [stepEvent] at hr
    | closeEvt =>
      cases m with
      | conn => rw [runEvents] at hr; simp [stepEvent] at hr
      | opened =>
        rw [runEvents] at hr
        simp only [stepEvent] at hr
        have hs : s = WebSocketStatus.Opened := hc
        subst hs
        simpa [eventStatus, validChain, validEdge] using
          ih MachineState.dead WebSocketStatus.Closed (Or.inl rfl) hr
      | dead => rw [runEvents] at hr; simp [stepEvent] at hr
    | errorEvt msg =>
      cases m with
      | conn =>
        rw [runEvents] at hr
        simp only [stepEvent] at hr
        have hs : s = WebSocketStatus.Connecting := hc
        subst hs
        simpa [eventStatus, validChain, validEdge] using
          ih MachineState.dead (WebSocketStatus.Error msg) (Or.inr ⟨msg, rfl⟩) hr
      | opened =>
        rw [runEvents] at hr
        simp only [stepEvent] at hr
        have hs : s = WebSocketStatus.Opened := hc
        subst hs
        simpa [eventStatus, validChain, validEdge] using
          ih MachineState.dead (WebSocketStatus.Error msg) (Or.inr ⟨msg, rfl⟩) hr
      | dead => rw [runEvents] at hr; simp [stepEvent] at hr

/-- C1 (amended): each status report is a fixed function of its event
(open ↦ Opened, close ↦ Closed, error ↦ Error detail), so for every
delivered event sequence that is itself well-formed (open only while
connecting, close only after open, nothing after a close or error
event), every reported transition is an edge of the machine
`Connecting → Opened or Error`, `Opened → Closed or Error`, and no
status is reported after `Closed` or `Error`. -/
theorem statusTrace_valid_of_wf (es : List SocketEvent)
    (h : wfEvents es = true) :
    validTrace (statusTrace es) = true :=
  validChain_of_run es MachineState.conn WebSocketStatus.Connecting rfl h

/-- C1 witness: a concrete well-formed delivery (message, open, close)
whose status trace the machine accepts. -/
theorem statusTrace_valid_of_wf_witness :
    wfEvents [SocketEvent.messageEvt (JsData.str "hi"), SocketEvent.openEvt,
      SocketEvent.closeEvt] = true ∧
    validTrace (statusTrace [SocketEvent.messageEvt (JsData.str "hi"),
      SocketEvent.openEvt, SocketEvent.closeEvt]) = true :=
  ⟨rfl, statusTrace_valid_of_wf _ rfl⟩

/-! ### C2, C3, C10: connect -/

/-- C2: for every URL and every construction outcome, the very first
action of `connect` is a status-callback invocation with `Connecting`
(before construction and before any listener exists), and it is the
only callback invocation `connect` performs before returning. -/
theorem connect_connecting_first (url : String)
    (ctor : String → Except String Unit) :
    (connect url ctor).1.head? =
      some (ConnectStep.notify WebSocketStatus.Connecting) ∧
    notifiesOf (connect url ctor).1 = [WebSocketStatus.Connecting] := by
  cases h : ctor url <;>
    simp [connect, connect_common, h, notifiesOf, List.filterMap]

/-- C3: `connect` returns an error exactly when socket construction
throws, and then it is `CreationError` carrying the construction
error's text, with no handle; otherwise it returns a handle holding
the four attached listeners (message, open, close, error). -/
theorem connect_result_spec (url : String)
    (ctor : String → Except String Unit) :
    ((connect url ctor).2 =
      match ctor url with
      | .error e => Except.error (WebSocketError.CreationError e)
      | .ok _ => Except.ok { listeners := [ListenerKind.onMessage,
          ListenerKind.onOpen, ListenerKind.onClose, ListenerKind.onError] }) ∧
    ((∃ err, (connect url ctor).2 = Except.error err) ↔
      ∃ e, ctor url = Except.error e) := by
  cases h : ctor url with
  | error e =>
    refine ⟨by simp [connect, connect_common, h], ?_⟩
    exact ⟨fun _ => ⟨e, rfl⟩, fun _ => ⟨WebSocketError.CreationError e,
      by simp [connect, connect_common, h]⟩⟩
  | ok u =>
    refine ⟨by simp [connect, connect_common, h], ?_⟩
    constructor
    · rintro ⟨err, herr⟩
      simp [connect, connect_common, h] at herr
    · rintro ⟨e, he⟩
      simp [h] at he

/-- C10: when socket construction fails, the status callback has
already been invoked with `Connecting` before the construction attempt
— the trace is exactly that notification followed by the failed
construction, nothing rolls it back, and the result is the
`CreationError`. -/
theorem connect_connecting_on_error (url : String)
    (ctor : String → Except String Unit) (e : String)
    (h : ctor url = Except.error e) :
    (connect url ctor).1 = [ConnectStep.notify WebSocketStatus.Connecting,
      ConnectStep.construct url] ∧
    (connect url ctor).2 = Except.error (WebSocketError.CreationError e) := by
  simp [connect, connect_common, h]

/-- C10 witness: a constructor that throws with text "boom". -/
theorem connect_connecting_on_error_witness :
    (connect "bad-url" (fun _ => Except.error "boom")).1 =
      [ConnectStep.notify WebSocketStatus.Connecting,
       ConnectStep.construct "bad-url"] ∧
    (connect "bad-url" (fun _ => Except.error "boom")).2 =
      Except.error (WebSocketError.CreationError "boom") :=
  connect_connecting_on_error "bad-url" (fun _ => Except.error "boom") "boom" rfl

/-! ### C4: send -/

/-- C4: `send` and `send_binary` return nothing to the caller (their
Rust return type is `()`; the modelled value is the list of callback
invocations); when transmission fails the status callback is invoked
with `Error` carrying the failure, and when it succeeds no callback is
invoked. -/
theorem send_contract (t : WebSocketTask) (text : String)
    (bytes : List Nat) (e : String) :
    t.send text (Except.error e) = [WebSocketStatus.Error e] ∧
    t.send text (Except.ok ()) = [] ∧
    t.send_binary bytes (Except.error e) = [WebSocketStatus.Error e] ∧
    t.send_binary bytes (Except.ok ()) = [] :=
  ⟨rfl, rfl, rfl, rfl⟩

/-! ### C7: display rendering -/

/-- Helper for C7: the source's fold-with-push is concatenation. -/
theorem foldl_hexByte_eq (bs : List Nat) (acc : String) :
    bs.foldl (fun out byte => out ++ hexByte byte) acc = acc ++ hexConcat bs := by
  induction bs generalizing acc with
  | nil => simp [hexConcat, String.append_empty]
  | cons b rest ih => simp [hexConcat, ih, String.append_assoc]

/-- C7: `to_string` renders `Text s` as `s` verbatim and `Binary bs`
as the concatenation of the two-digit lowercase hex rendering of each
byte in order; in particular `Binary [0x0a, 0xff]` renders as "0aff". -/
theorem to_string_spec :
    (∀ s, (WebSocketMessage.Text s).to_string = s) ∧
    (∀ bs, (WebSocketMessage.Binary bs).to_string = hexConcat bs) ∧
    (WebSocketMessage.Binary [0x0a, 0xff]).to_string = "0aff" := by
  refine ⟨fun s => rfl, fun bs => ?_, by decide⟩
  simpa using foldl_hexByte_eq bs ""

/-! ### C8: drop -/

/-- Recogniser for detach actions (everything except a socket close). -/
def isDetach : DropAction → Bool
  | .detach _ => true
  | .closeSocket => false

/-- C8: dropping the handle detaches the four listeners but never
closes the underlying socket — every action of `dropTask` is a
detachment, for any task; in particular, for the handle `connect`
returns, the drop actions are exactly the four detachments and no
`closeSocket` occurs. -/
theorem dropTask_no_close :
    (∀ t : WebSocketTask, (dropTask t).all isDetach = true) ∧
    dropTask { listeners := [ListenerKind.onMessage, ListenerKind.onOpen,
        ListenerKind.onClose, ListenerKind.onError] } =
      [DropAction.detach ListenerKind.onMessage,
       DropAction.detach ListenerKind.onOpen,
       DropAction.detach ListenerKind.onClose,
       DropAction.detach ListenerKind.onError] := by
  refine ⟨fun t => ?_, rfl⟩
  simp [dropTask, List.all_eq_true, isDetach]
